import Mathlib

/-!
Shallow embedding of `nextjs-centralized-error-handler` (src/errorHandler.js,
src/customErrors.js) and proofs about its error-handling contract.

The JavaScript is modelled as follows: the values a handler can throw or
return are an inductive `JSValue`; objects are modelled by the parts the
dispatcher observes (prototype-chain class names plus the `name`, `message`
and `statusCode` properties); property access on `null`/`undefined` is a
thrown `TypeError`, modelled with `Except`.  The wrapped handler produced by
`errorHandler` is modelled per calling convention: `runApiRoute` for the
imperative convention (second argument exposes a callable `status`) and
`runAppRouter` for the value-returning convention.  Logging side effects are
returned as a list of `LogEvent`s alongside the result.
-/

/-- A JSON-like value, the shape of error-response bodies
(`errorResponse` in src/errorHandler.js) and of `formatError` results. -/
inductive Json where
  | jNull
  | jBool (b : Bool)
  | jNum (n : Int)
  | jStr (s : String)
  | jArr (elems : List Json)
  | jObj (fields : List (String × Json))

/-- Escaping of one character as performed by `JSON.stringify` on strings
(backslash, quote and the common control characters; other characters are
emitted verbatim, which is exact for all strings in this development). -/
def escapeJsonChar (c : Char) : String :=
  if c = '\\' then "\\\\"
  else if c = '"' then "\\\""
  else if c = '\n' then "\\n"
  else if c = '\r' then "\\r"
  else if c = '\t' then "\\t"
  else String.singleton c

/-- String escaping of `JSON.stringify`. -/
def escapeJsonString (s : String) : String :=
  String.join (s.toList.map escapeJsonChar)

mutual

/-- `JSON.stringify`, restricted to the JSON-like values of `Json`
(insertion order of object keys is preserved, as in JavaScript). -/
def Json.serialize : Json → String
  | .jNull => "null"
  | .jBool true => "true"
  | .jBool false => "false"
  | .jNum n => toString n
  | .jStr s => "\"" ++ escapeJsonString s ++ "\""
  | .jArr elems => "[" ++ serializeElems elems ++ "]"
  | .jObj fields => "\x7b" ++ serializeFields fields ++ "\x7d"

/-- Comma-separated serialization of array elements. -/
def serializeElems : List Json → String
  | [] => ""
  | [x] => Json.serialize x
  | x :: y :: rest => Json.serialize x ++ "," ++ serializeElems (y :: rest)

/-- Comma-separated serialization of object fields. -/
def serializeFields : List (String × Json) → String
  | [] => ""
  | [(k, v)] => "\"" ++ escapeJsonString k ++ "\":" ++ Json.serialize v
  | (k, v) :: y :: rest =>
      "\"" ++ escapeJsonString k ++ "\":" ++ Json.serialize v ++ "," ++ serializeFields (y :: rest)

end

/-- A JavaScript object as observed by the error handler: the class names on
its prototype chain (innermost first) and the three properties the handler
reads.  `none` for a property models the property being absent (reading it
yields `undefined`). -/
structure ErrObject where
  classChain : List String
  name : Option String
  message : Option String
  statusCode : Option Int
deriving DecidableEq

/-- A web `Response` value (the value-returning convention's response
objects): a numeric status, a header map, and a body (`none` models the
`null` body of `new Response(null, ...)`). -/
structure ResponseV where
  status : Int
  headers : List (String × String)
  body : Option String
deriving DecidableEq

/-- A JavaScript value as far as the dispatcher can observe it: the
primitives, error-like objects, and `Response` objects. -/
inductive JSValue where
  | vNull
  | vUndefined
  | vBool (b : Bool)
  | vNum (n : Int)
  | vStr (s : String)
  | vErrObj (o : ErrObject)
  | vResp (r : ResponseV)
deriving DecidableEq

/-- JavaScript truthiness of a `JSValue` (objects are always truthy). -/
def truthy : JSValue → Bool
  | .vNull => false
  | .vUndefined => false
  | .vBool b => b
  | .vNum n => n != 0
  | .vStr s => s != ""
  | .vErrObj _ => true
  | .vResp _ => true

/-- `error instanceof CustomError` (src/errorHandler.js line 111): a nominal
check on the prototype chain; `false` for every non-object. -/
def isCustomError : JSValue → Bool
  | .vErrObj o => o.classChain.contains "CustomError"
  | _ => false

/-- The `name` property of a value when property access succeeds
(`undefined`, i.e. `none`, on primitives and on objects without one). -/
def jsName : JSValue → Option String
  | .vErrObj o => o.name
  | _ => none

/-- The `message` property of a value (read only on objects by the code). -/
def jsMessage : JSValue → Option String
  | .vErrObj o => o.message
  | _ => none

/-- The `statusCode` property of a value (read only on objects by the code). -/
def jsStatusCode : JSValue → Option Int
  | .vErrObj o => o.statusCode
  | _ => none

/-- Evaluation of `error.name`: accessing a property of `null` or
`undefined` throws a `TypeError` (modelled as `Except.error ()`); on every
other value it yields the property (possibly `undefined`). -/
def getNameField : JSValue → Except Unit (Option String)
  | .vNull => .error ()
  | .vUndefined => .error ()
  | e => .ok (jsName e)

/-- `nm || 'Error'` as evaluated at `error.name || 'Error'`
(src/errorHandler.js lines 123 and 138): `undefined` and the empty string
are falsy, so both fall back to the literal `"Error"`. -/
def nameOrError : Option String → String
  | some s => if s = "" then "Error" else s
  | none => "Error"

/-- `new CustomError(message, statusCode, name)` (src/customErrors.js lines
3-14): an `Error` subclass instance carrying `statusCode` and `name`. -/
def CustomError (message : String) (statusCode : Int) (name : String) : ErrObject :=
  ⟨["CustomError", "Error"], some name, some message, some statusCode⟩

/-- An instance of a predefined subtype of `CustomError`: its constructor
calls `super(message, code, kindName)` with its own fixed code and kind
name, and a default message that applies when the caller passes none. -/
def mkPredefined (kindName : String) (code : Int) (defaultMsg : String)
    (message : Option String) : ErrObject :=
  ⟨[kindName, "CustomError", "Error"], some kindName,
    some (message.getD defaultMsg), some code⟩

/-- `new BadRequestError(message?)` (src/customErrors.js). -/
def BadRequestError : Option String → ErrObject :=
  mkPredefined "BadRequestError" 400
    "It seems there was an error with your request. Please check the data you entered and try again."

/-- `new UnauthorizedError(message?)` (src/customErrors.js). -/
def UnauthorizedError : Option String → ErrObject :=
  mkPredefined "UnauthorizedError" 401 "Unauthorized access. Please log in again."

/-- `new PaymentRequiredError(message?)` (src/customErrors.js). -/
def PaymentRequiredError : Option String → ErrObject :=
  mkPredefined "PaymentRequiredError" 402 "Payment is required to access this resource."

/-- `new ForbiddenError(message?)` (src/customErrors.js). -/
def ForbiddenError : Option String → ErrObject :=
  mkPredefined "ForbiddenError" 403 "Access denied."

/-- `new NotFoundError(message?)` (src/customErrors.js). -/
def NotFoundError : Option String → ErrObject :=
  mkPredefined "NotFoundError" 404 "The requested resource was not found."

/-- `new MethodNotAllowedError(message?)` (src/customErrors.js). -/
def MethodNotAllowedError : Option String → ErrObject :=
  mkPredefined "MethodNotAllowedError" 405 "The HTTP method used is not allowed for this resource."

/-- `new NotAcceptableError(message?)` (src/customErrors.js). -/
def NotAcceptableError : Option String → ErrObject :=
  mkPredefined "NotAcceptableError" 406
    "The requested resource is not available in a format acceptable to your browser."

/-- `new RequestTimeoutError(message?)` (src/customErrors.js). -/
def RequestTimeoutError : Option String → ErrObject :=
  mkPredefined "RequestTimeoutError" 408 "The server timed out waiting for your request."

/-- `new ConflictError(message?)` (src/customErrors.js). -/
def ConflictError : Option String → ErrObject :=
  mkPredefined "ConflictError" 409 "A conflict occurred with the current state of the resource."

/-- `new PayloadTooLargeError(message?)` (src/customErrors.js). -/
def PayloadTooLargeError : Option String → ErrObject :=
  mkPredefined "PayloadTooLargeError" 413 "The request payload is too large."

/-- `new TooManyRequestsError(message?)` (src/customErrors.js). -/
def TooManyRequestsError : Option String → ErrObject :=
  mkPredefined "TooManyRequestsError" 429
    "You have made too many requests in a short period of time."

/-- `new InternalServerError(message?)` (src/customErrors.js). -/
def InternalServerError : Option String → ErrObject :=
  mkPredefined "InternalServerError" 500
    "An internal server error occurred. Please try again later."

/-- `new NotImplementedError(message?)` (src/customErrors.js). -/
def NotImplementedError : Option String → ErrObject :=
  mkPredefined "NotImplementedError" 501 "This functionality has not been implemented."

/-- `new BadGatewayError(message?)` (src/customErrors.js). -/
def BadGatewayError : Option String → ErrObject :=
  mkPredefined "BadGatewayError" 502 "Received an invalid response from the upstream server."

/-- `new ServiceUnavailableError(message?)` (src/customErrors.js). -/
def ServiceUnavailableError : Option String → ErrObject :=
  mkPredefined "ServiceUnavailableError" 503 "The service is currently unavailable."

/-- `new GatewayTimeoutError(message?)` (src/customErrors.js). -/
def GatewayTimeoutError : Option String → ErrObject :=
  mkPredefined "GatewayTimeoutError" 504 "The upstream server failed to send a request in time."

/-- `new HTTPVersionNotSupportedError(message?)` (src/customErrors.js). -/
def HTTPVersionNotSupportedError : Option String → ErrObject :=
  mkPredefined "HTTPVersionNotSupportedError" 505
    "The server does not support the HTTP protocol version used in the request."

/-- `new VariantAlsoNegotiatesError(message?)` (src/customErrors.js). -/
def VariantAlsoNegotiatesError : Option String → ErrObject :=
  mkPredefined "VariantAlsoNegotiatesError" 506 "Variant Also Negotiates."

/-- `new InsufficientStorageError(message?)` (src/customErrors.js). -/
def InsufficientStorageError : Option String → ErrObject :=
  mkPredefined "InsufficientStorageError" 507
    "The server is unable to store the representation needed to complete the request."

/-- `new BandwidthLimitExceededError(message?)` (src/customErrors.js). -/
def BandwidthLimitExceededError : Option String → ErrObject :=
  mkPredefined "BandwidthLimitExceededError" 509 "Bandwidth limit exceeded."

/-- `new NetworkAuthenticationRequiredError(message?)` (src/customErrors.js). -/
def NetworkAuthenticationRequiredError : Option String → ErrObject :=
  mkPredefined "NetworkAuthenticationRequiredError" 511
    "Network authentication is required to access this resource."

/-- The `logger` option after destructuring with default `console.error`
(src/errorHandler.js line 56): either not a function (skipped by the
`typeof logger === 'function'` guard) or callable; a callable logger either
returns normally or throws when invoked. -/
inductive LoggerOpt where
  | notCallable
  | callable (throwsWhenCalled : Bool)
deriving DecidableEq

/-- The `formatError` option (default `null`): absent (falsy, so the
`formatError && typeof formatError === 'function'` guard fails), present
but not a function (the guard also fails), or callable.  A callable
`formatError` receives the error and the request and either returns a body
or throws (`Except.error`). -/
inductive FormatErrorOpt where
  | absent
  | notCallable
  | callable (f : JSValue → JSValue → Except Unit Json)

/-- The options bag of `errorHandler` after destructuring with defaults
(src/errorHandler.js lines 55-60). -/
structure Options where
  logger : LoggerOpt
  defaultStatusCode : Int
  defaultMessage : String
  formatError : FormatErrorOpt

/-- The options produced by calling `errorHandler(handler)` with no options:
`console.error` (a function that does not throw) as logger, status 500, the
default message, and no `formatError`. -/
def defaultOptions : Options :=
  ⟨.callable false, 500, "An internal server error occurred. Please try again later.", .absent⟩

/-- Observable logging side effects of one invocation of the wrapped
handler: a call `logger(label, error)`, the secondary
`console.error('Logging failed:', ...)` after a throwing logger, and the
secondary `console.error('formatError failed:', ...)` after a throwing
`formatError`. -/
inductive LogEvent where
  | loggerCall (label : String) (error : JSValue)
  | loggingFailed
  | formatErrorFailed
deriving DecidableEq

/-- The logging performed at src/errorHandler.js lines 96-102: a callable
logger is invoked with the label and the error; if it throws, the throw is
swallowed and logged through `console.error`. -/
def loggerEvents (lg : LoggerOpt) (label : String) (error : JSValue) : List LogEvent :=
  match lg with
  | .notCallable => []
  | .callable thr => .loggerCall label error :: (if thr then [.loggingFailed] else [])

/-- The status classification at src/errorHandler.js lines 104-114:
`defaultStatusCode` unless the error is a `CustomError` instance, in which
case its own `statusCode` property (an `Option Int`, since the property is
`undefined` when absent). -/
def classifyStatus (defaultStatusCode : Int) (error : JSValue) : Option Int :=
  if isCustomError error then jsStatusCode error else some defaultStatusCode

/-- The message classification at src/errorHandler.js lines 104-114:
`defaultMessage` unless the error is a `CustomError` instance, in which
case `error.message || defaultMessage` (an absent or empty message is
falsy, so it falls back to `defaultMessage`). -/
def classifyMessage (defaultMessage : String) (error : JSValue) : String :=
  if isCustomError error then
    match jsMessage error with
    | some m => if m = "" then defaultMessage else m
    | none => defaultMessage
  else defaultMessage

/-- The default response envelope built at src/errorHandler.js lines
120-125: `\x7b error: \x7b message, type \x7d \x7d`. -/
def defaultEnvelope (message typeStr : String) : Json :=
  .jObj [("error", .jObj [("message", .jStr message), ("type", .jStr typeStr)])]

/-- The minimal fallback envelope built when `formatError` throws
(src/errorHandler.js lines 136-139): `\x7b message, type \x7d`, without the
outer `error` wrapper. -/
def fallbackEnvelope (message typeStr : String) : Json :=
  .jObj [("message", .jStr message), ("type", .jStr typeStr)]

/-- The value computed by the catch block of the wrapped handler
(src/errorHandler.js lines 104-141): the classified status code and the
response body, or `Except.error ()` when the catch block itself throws a
`TypeError` (which happens exactly when the thrown value is `null` or
`undefined`, at the `error.name` access on line 123 — the classification
on lines 104-114 runs before that access and never throws). -/
def handleErrorResult (opts : Options) (req error : JSValue) :
    Except Unit (Option Int × Json) :=
  let statusCode := classifyStatus opts.defaultStatusCode error
  let message := classifyMessage opts.defaultMessage error
  match getNameField error with
  | .error _ => .error ()
  | .ok nm =>
    let typeStr := nameOrError nm
    match opts.formatError with
    | .callable f =>
      match f error req with
      | .ok body => .ok (statusCode, body)
      | .error _ => .ok (statusCode, fallbackEnvelope message typeStr)
    | _ => .ok (statusCode, defaultEnvelope message typeStr)

/-- The logging side effects of the catch block: the logger invocation
(lines 90-102, which happens even when the catch block later throws on the
`error.name` access), followed by the secondary log of a `formatError`
failure (line 135, reached only when the `error.name` access succeeded). -/
def handleErrorLog (opts : Options) (req error : JSValue) (label : String) : List LogEvent :=
  loggerEvents opts.logger label error ++
    (match getNameField error, opts.formatError with
     | .ok _, .callable f =>
       match f error req with
       | .error _ => [.formatErrorFailed]
       | .ok _ => []
     | _, _ => [])

/-- Outcome of running the original handler under the imperative (API
Route) convention: it either returns normally (having written to `res`
itself) or throws/rejects with some value. -/
inductive ApiOutcome where
  | success
  | throws (error : JSValue)

/-- Outcome of running the original handler under the value-returning (App
Router) convention: it either returns a value (`vUndefined` when it returns
nothing) or throws/rejects. -/
inductive AppOutcome where
  | success (v : JSValue)
  | throws (error : JSValue)

/-- What the wrapper emits through the response sink under the imperative
convention: `res.status(statusCode).json(errorResponse)`
(src/errorHandler.js line 150). -/
structure ApiEmit where
  status : Option Int
  body : Json

/-- The wrapped handler under the imperative convention (`res` present with
a callable `status`, src/errorHandler.js lines 74-76, 90-102, 104-150):
on success nothing is emitted; on a throw the catch block runs with log
label `'API Route Error:'` and emits through `res`.  `Except.error ()`
models the wrapped handler itself rejecting (the catch block's
`TypeError`). -/
def runApiRoute (opts : Options) (req : JSValue) (outcome : ApiOutcome) :
    Except Unit (Option ApiEmit) × List LogEvent :=
  match outcome with
  | .success => (.ok none, [])
  | .throws e =>
    (match handleErrorResult opts req e with
     | .error _ => .error ()
     | .ok (st, body) => .ok (some ⟨st, body⟩),
     handleErrorLog opts req e "API Route Error:")

/-- The wrapped handler under the value-returning convention (no response
sink, src/errorHandler.js lines 77-83, 90-102, 104-141, 151-157): on
success it returns `response || new Response(null, \x7b status: 204 \x7d)`;
on a throw the catch block runs with log label `'Route Error:'` and a
`Response` is built from the serialized envelope with status `statusCode`
and a JSON content-type header.  (`Response` defaults its status to 200
when given `undefined`, hence `getD 200`; every reachable error path here
supplies a concrete status.) -/
def runAppRouter (opts : Options) (req : JSValue) (outcome : AppOutcome) :
    Except Unit JSValue × List LogEvent :=
  match outcome with
  | .success v =>
    if truthy v then (.ok v, []) else (.ok (.vResp ⟨204, [], none⟩), [])
  | .throws e =>
    (match handleErrorResult opts req e with
     | .error _ => .error ()
     | .ok (st, body) =>
       .ok (.vResp ⟨st.getD 200, [("Content-Type", "application/json")], some body.serialize⟩),
     handleErrorLog opts req e "Route Error:")

/-- The per-kind obligations of the taxonomy table: the kind name is its own
identifier (never the base identifier `"CustomError"`), constructing with no
message yields the fixed status code, the documented default message and the
kind name, and constructing with a message overrides only the message. -/
def kindOK (ctor : Option String → ErrObject) (code : Int)
    (defaultMsg kindName : String) : Prop :=
  kindName ≠ "CustomError" ∧
  (ctor none).statusCode = some code ∧
  (ctor none).message = some defaultMsg ∧
  (ctor none).name = some kindName ∧
  ∀ m : String, (ctor (some m)).statusCode = some code ∧
    (ctor (some m)).message = some m ∧ (ctor (some m)).name = some kindName

theorem kindOK_mkPredefined (k : String) (c : Int) (d : String)
    (h : k ≠ "CustomError") : kindOK (mkPredefined k c d) c d k :=
  ⟨h, rfl, rfl, rfl, fun _ => ⟨rfl, rfl, rfl⟩⟩

theorem handleErrorResult_logger_irrel (lg lg' : LoggerOpt) (dsc : Int) (dm : String)
    (fe : FormatErrorOpt) (req e : JSValue) :
    handleErrorResult ⟨lg, dsc, dm, fe⟩ req e = handleErrorResult ⟨lg', dsc, dm, fe⟩ req e := by
  simp [handleErrorResult]

/-- C7: for every one of the 21 predefined taxonomy kinds, constructing it
with no message yields exactly the documented default message and the fixed
status code of the spec's table; constructing it with a message overrides
only the message, leaving the status code fixed; and its kind name always
equals the subtype's own identifier, never the base identifier
`"CustomError"`. -/
theorem predefined_kinds_match_table :
    kindOK BadRequestError 400
      "It seems there was an error with your request. Please check the data you entered and try again."
      "BadRequestError" ∧
    kindOK UnauthorizedError 401 "Unauthorized access. Please log in again." "UnauthorizedError" ∧
    kindOK PaymentRequiredError 402 "Payment is required to access this resource."
      "PaymentRequiredError" ∧
    kindOK ForbiddenError 403 "Access denied." "ForbiddenError" ∧
    kindOK NotFoundError 404 "The requested resource was not found." "NotFoundError" ∧
    kindOK MethodNotAllowedError 405 "The HTTP method used is not allowed for this resource."
      "MethodNotAllowedError" ∧
    kindOK NotAcceptableError 406
      "The requested resource is not available in a format acceptable to your browser."
      "NotAcceptableError" ∧
    kindOK RequestTimeoutError 408 "The server timed out waiting for your request."
      "RequestTimeoutError" ∧
    kindOK ConflictError 409 "A conflict occurred with the current state of the resource."
      "ConflictError" ∧
    kindOK PayloadTooLargeError 413 "The request payload is too large." "PayloadTooLargeError" ∧
    kindOK TooManyRequestsError 429
      "You have made too many requests in a short period of time." "TooManyRequestsError" ∧
    kindOK InternalServerError 500
      "An internal server error occurred. Please try again later." "InternalServerError" ∧
    kindOK NotImplementedError 501 "This functionality has not been implemented."
      "NotImplementedError" ∧
    kindOK BadGatewayError 502 "Received an invalid response from the upstream server."
      "BadGatewayError" ∧
    kindOK ServiceUnavailableError 503 "The service is currently unavailable."
      "ServiceUnavailableError" ∧
    kindOK GatewayTimeoutError 504 "The upstream server failed to send a request in time."
      "GatewayTimeoutError" ∧
    kindOK HTTPVersionNotSupportedError 505
      "The server does not support the HTTP protocol version used in the request."
      "HTTPVersionNotSupportedError" ∧
    kindOK VariantAlsoNegotiatesError 506 "Variant Also Negotiates."
      "VariantAlsoNegotiatesError" ∧
    kindOK InsufficientStorageError 507
      "The server is unable to store the representation needed to complete the request."
      "InsufficientStorageError" ∧
    kindOK BandwidthLimitExceededError 509 "Bandwidth limit exceeded."
      "BandwidthLimitExceededError" ∧
    kindOK NetworkAuthenticationRequiredError 511
      "Network authentication is required to access this resource."
      "NetworkAuthenticationRequiredError" :=
  ⟨kindOK_mkPredefined _ _ _ (by decide), kindOK_mkPredefined _ _ _ (by decide),
   kindOK_mkPredefined _ _ _ (by decide), kindOK_mkPredefined _ _ _ (by decide),
   kindOK_mkPredefined _ _ _ (by decide), kindOK_mkPredefined _ _ _ (by decide),
   kindOK_mkPredefined _ _ _ (by decide), kindOK_mkPredefined _ _ _ (by decide),
   kindOK_mkPredefined _ _ _ (by decide), kindOK_mkPredefined _ _ _ (by decide),
   kindOK_mkPredefined _ _ _ (by decide), kindOK_mkPredefined _ _ _ (by decide),
   kindOK_mkPredefined _ _ _ (by decide), kindOK_mkPredefined _ _ _ (by decide),
   kindOK_mkPredefined _ _ _ (by decide), kindOK_mkPredefined _ _ _ (by decide),
   kindOK_mkPredefined _ _ _ (by decide), kindOK_mkPredefined _ _ _ (by decide),
   kindOK_mkPredefined _ _ _ (by decide), kindOK_mkPredefined _ _ _ (by decide),
   kindOK_mkPredefined _ _ _ (by decide)⟩

/-- C8: under the value-returning convention with default options, when the
handler throws `CustomError('Test custom error.', 400, 'BadRequestError')`,
the wrapped handler returns a response with status 400, a
`Content-Type: application/json` header, and the exact JSON body
`\x7b"error":\x7b"message":"Test custom error.","type":"BadRequestError"\x7d\x7d`. -/
theorem custom_error_app_router_scenario :
    (runAppRouter defaultOptions .vUndefined
        (.throws (.vErrObj (CustomError "Test custom error." 400 "BadRequestError")))).1
      = .ok (.vResp ⟨400, [("Content-Type", "application/json")],
          some "\x7b\"error\":\x7b\"message\":\"Test custom error.\",\"type\":\"BadRequestError\"\x7d\x7d"⟩) :=
  rfl

/-- C5: under the value-returning convention, a handler that returns a
response value has that exact value forwarded unchanged (status, headers and
body all pass through), and a handler that returns nothing (`undefined`)
yields a synthesized response with status 204, no headers (hence no
content-type header) and no body. -/
theorem app_router_success_forwarding (opts : Options) (req : JSValue) :
    (∀ r : ResponseV, runAppRouter opts req (.success (.vResp r)) = (.ok (.vResp r), [])) ∧
    runAppRouter opts req (.success .vUndefined) = (.ok (.vResp ⟨204, [], none⟩), []) :=
  ⟨fun _ => rfl, rfl⟩

/-- C9: under the value-returning convention, every falsy return value of
the handler (`null`, `undefined`, `false`, `0`, the empty string) is
replaced by the synthesized 204 no-content response rather than forwarded. -/
theorem falsy_handler_result_becomes_204 (opts : Options) (req v : JSValue)
    (h : truthy v = false) :
    runAppRouter opts req (.success v) = (.ok (.vResp ⟨204, [], none⟩), []) := by
  simp [runAppRouter, h]

/-- Witness for C9: the theorem applied to the concrete falsy values
`null`, `false`, `0` and `""`. -/
theorem falsy_handler_result_becomes_204_witness :
    runAppRouter defaultOptions .vUndefined (.success .vNull)
      = (.ok (.vResp ⟨204, [], none⟩), []) ∧
    runAppRouter defaultOptions .vUndefined (.success (.vBool false))
      = (.ok (.vResp ⟨204, [], none⟩), []) ∧
    runAppRouter defaultOptions .vUndefined (.success (.vNum 0))
      = (.ok (.vResp ⟨204, [], none⟩), []) ∧
    runAppRouter defaultOptions .vUndefined (.success (.vStr ""))
      = (.ok (.vResp ⟨204, [], none⟩), []) :=
  ⟨falsy_handler_result_becomes_204 _ _ _ (by decide),
   falsy_handler_result_becomes_204 _ _ _ (by decide),
   falsy_handler_result_becomes_204 _ _ _ (by decide),
   falsy_handler_result_becomes_204 _ _ _ (by decide)⟩

/-- C3: evaluation of the code at the failing input.  When the handler
throws `undefined` (and likewise `null`), the catch block's `error.name`
access itself throws a `TypeError`, so the wrapped handler rejects instead
of emitting an error response — under both conventions.  This contradicts
the claim that the wrapped handler never propagates an unhandled exception
past itself for thrown values of any shape. -/
theorem catch_block_rejects_on_nullish_throw :
    (runApiRoute defaultOptions .vUndefined (.throws .vUndefined)).1 = .error () ∧
    (runAppRouter defaultOptions .vUndefined (.throws .vUndefined)).1 = .error () :=
  ⟨rfl, rfl⟩

/-- Counterexample to C1 as stated: thrown `null` is not a taxonomy
instance, yet the wrapped handler produces no error response at all (the
catch block throws a `TypeError` at the `error.name` access), so the
response does not have `defaultStatusCode`/`defaultMessage`. -/
theorem null_throw_yields_no_response :
    (runAppRouter defaultOptions .vUndefined (.throws .vNull)).1 = .error () :=
  rfl

/-- C1 (amended): for every thrown value that is not an instance of the
base taxonomy kind and is not `null`/`undefined` (on which the catch block
itself throws), with no `formatError` configured, the error response has
status `defaultStatusCode` and message `defaultMessage`, under both
conventions; the fields carried by the thrown value never influence the
response status or message (only the `type` field echoes its `name`). -/
theorem unrecognized_throw_collapsed_to_defaults (lg : LoggerOpt) (dsc : Int)
    (dm : String) (req e : JSValue) (hc : isCustomError e = false)
    (hn : e ≠ .vNull) (hu : e ≠ .vUndefined) :
    (runApiRoute ⟨lg, dsc, dm, .absent⟩ req (.throws e)).1
      = .ok (some ⟨some dsc, defaultEnvelope dm (nameOrError (jsName e))⟩) ∧
    (runAppRouter ⟨lg, dsc, dm, .absent⟩ req (.throws e)).1
      = .ok (.vResp ⟨dsc, [("Content-Type", "application/json")],
          some (defaultEnvelope dm (nameOrError (jsName e))).serialize⟩) := by
  cases e with
  | vNull => exact absurd rfl hn
  | vUndefined => exact absurd rfl hu
  | vBool b =>
      exact ⟨rfl, rfl⟩
  | vNum n =>
      exact ⟨rfl, rfl⟩
  | vStr s =>
      exact ⟨rfl, rfl⟩
  | vErrObj o =>
      constructor <;>
        simp [runApiRoute, runAppRouter, handleErrorResult, getNameField,
          classifyStatus, classifyMessage, hc]
  | vResp r =>
      exact ⟨rfl, rfl⟩

/-- Witness for C1 (amended): the spec's own scenario — a thrown plain
`Error` carrying an attached `statusCode` of 400 — still yields status 500
and the default message under default configuration. -/
theorem unrecognized_throw_collapsed_to_defaults_witness :
    (runApiRoute ⟨.callable false, 500,
        "An internal server error occurred. Please try again later.", .absent⟩ .vNull
        (.throws (.vErrObj ⟨["Error"], some "Error", some "Unexpected error.", some 400⟩))).1
      = .ok (some ⟨some 500,
          defaultEnvelope "An internal server error occurred. Please try again later." "Error"⟩) :=
  (unrecognized_throw_collapsed_to_defaults (.callable false) 500
    "An internal server error occurred. Please try again later." .vNull
    (.vErrObj ⟨["Error"], some "Error", some "Unexpected error.", some 400⟩)
    (by decide) (by decide) (by decide)).1

/-- C6: on every failure, a callable logger is invoked with the thrown value
and a fixed label that differs between the conventions — `'API Route
Error:'` for the imperative convention and `'Route Error:'` for the
value-returning one — and a logger that throws is swallowed: the result
(status and body, or the propagated catch-block crash) is identical to the
one produced with a non-throwing logger. -/
theorem logger_invocation_and_swallowing (dsc : Int) (dm : String)
    (fe : FormatErrorOpt) (req e : JSValue) (b : Bool) :
    (runApiRoute ⟨.callable b, dsc, dm, fe⟩ req (.throws e)).2.head?
      = some (.loggerCall "API Route Error:" e) ∧
    (runAppRouter ⟨.callable b, dsc, dm, fe⟩ req (.throws e)).2.head?
      = some (.loggerCall "Route Error:" e) ∧
    (runApiRoute ⟨.callable b, dsc, dm, fe⟩ req (.throws e)).1
      = (runApiRoute ⟨.callable false, dsc, dm, fe⟩ req (.throws e)).1 ∧
    (runAppRouter ⟨.callable b, dsc, dm, fe⟩ req (.throws e)).1
      = (runAppRouter ⟨.callable false, dsc, dm, fe⟩ req (.throws e)).1 := by
  have h := handleErrorResult_logger_irrel (.callable b) (.callable false) dsc dm fe req e
  refine ⟨rfl, rfl, ?_, ?_⟩ <;> simp [runApiRoute, runAppRouter, h]

/-- C2: for every thrown value that is an instance of a taxonomy kind (an
object with `CustomError` on its prototype chain, carrying its `name`,
`message` and `statusCode`), with no `formatError` configured, the error
response has status equal to that error's `statusCode`, message equal to
that error's `message` (falling back to `defaultMessage` only when that
message is empty), and `type` equal to its kind name, under both calling
conventions. -/
theorem taxonomy_throw_uses_own_status_message_type (lg : LoggerOpt) (dsc : Int)
    (dm : String) (req : JSValue) (chain : List String) (n m : String) (c : Int)
    (hchain : chain.contains "CustomError" = true) (hn : n ≠ "") :
    (runApiRoute ⟨lg, dsc, dm, .absent⟩ req
        (.throws (.vErrObj ⟨chain, some n, some m, some c⟩))).1
      = .ok (some ⟨some c, defaultEnvelope (if m = "" then dm else m) n⟩) ∧
    (runAppRouter ⟨lg, dsc, dm, .absent⟩ req
        (.throws (.vErrObj ⟨chain, some n, some m, some c⟩))).1
      = .ok (.vResp ⟨c, [("Content-Type", "application/json")],
          some (defaultEnvelope (if m = "" then dm else m) n).serialize⟩) := by
  have hmem : "CustomError" ∈ chain := by simpa using hchain
  constructor <;>
    simp [runApiRoute, runAppRouter, handleErrorResult, getNameField,
      classifyStatus, classifyMessage, isCustomError, jsName, jsMessage,
      jsStatusCode, nameOrError, hmem, hn]

/-- Witness for C2: a thrown `BadRequestError('Test bad request.')` yields
status 400, its own message and `type: "BadRequestError"`. -/
theorem taxonomy_throw_uses_own_status_message_type_witness :
    (runApiRoute ⟨.callable false, 500,
        "An internal server error occurred. Please try again later.", .absent⟩ .vNull
        (.throws (.vErrObj ⟨["BadRequestError", "CustomError", "Error"],
          some "BadRequestError", some "Test bad request.", some 400⟩))).1
      = .ok (some ⟨some 400, defaultEnvelope "Test bad request." "BadRequestError"⟩) := by
  have h := (taxonomy_throw_uses_own_status_message_type (.callable false) 500
    "An internal server error occurred. Please try again later." .vNull
    ["BadRequestError", "CustomError", "Error"] "BadRequestError"
    "Test bad request." 400 (by decide) (by decide)).1
  simpa using h

/-- C4: when `formatError` is callable, the error response body equals
exactly `formatError(error, request)`; when `formatError` is present but
not callable, the behavior (result and log) is identical to no
`formatError` at all; and when `formatError` itself throws, the failure is
caught and logged separately and the body falls back to the minimal
envelope `\x7b message, type \x7d` without the outer `error` wrapper. -/
theorem formatError_option_contract (lg : LoggerOpt) (dsc : Int) (dm : String)
    (req e : JSValue) (f : JSValue → JSValue → Except Unit Json)
    (hn : e ≠ .vNull) (hu : e ≠ .vUndefined) :
    (∀ body, f e req = .ok body →
      (runApiRoute ⟨lg, dsc, dm, .callable f⟩ req (.throws e)).1
        = .ok (some ⟨classifyStatus dsc e, body⟩) ∧
      (runAppRouter ⟨lg, dsc, dm, .callable f⟩ req (.throws e)).1
        = .ok (.vResp ⟨(classifyStatus dsc e).getD 200,
            [("Content-Type", "application/json")], some body.serialize⟩)) ∧
    (runApiRoute ⟨lg, dsc, dm, .notCallable⟩ req (.throws e)
        = runApiRoute ⟨lg, dsc, dm, .absent⟩ req (.throws e) ∧
      runAppRouter ⟨lg, dsc, dm, .notCallable⟩ req (.throws e)
        = runAppRouter ⟨lg, dsc, dm, .absent⟩ req (.throws e)) ∧
    (f e req = .error () →
      (runApiRoute ⟨lg, dsc, dm, .callable f⟩ req (.throws e)).1
        = .ok (some ⟨classifyStatus dsc e,
            fallbackEnvelope (classifyMessage dm e) (nameOrError (jsName e))⟩) ∧
      .formatErrorFailed ∈ (runApiRoute ⟨lg, dsc, dm, .callable f⟩ req (.throws e)).2 ∧
      (runAppRouter ⟨lg, dsc, dm, .callable f⟩ req (.throws e)).1
        = .ok (.vResp ⟨(classifyStatus dsc e).getD 200,
            [("Content-Type", "application/json")],
            some (fallbackEnvelope (classifyMessage dm e) (nameOrError (jsName e))).serialize⟩)) := by
  refine ⟨fun body hOk => ?_, ?_, fun hThrow => ?_⟩
  · cases e with
    | vNull => exact absurd rfl hn
    | vUndefined => exact absurd rfl hu
    | _ =>
        constructor <;>
          simp [runApiRoute, runAppRouter, handleErrorResult, getNameField, hOk]
  · cases e with
    | vNull => exact ⟨rfl, rfl⟩
    | vUndefined => exact ⟨rfl, rfl⟩
    | _ => exact ⟨rfl, rfl⟩
  · cases e with
    | vNull => exact absurd rfl hn
    | vUndefined => exact absurd rfl hu
    | _ =>
        refine ⟨?_, ?_, ?_⟩ <;>
          simp [runApiRoute, runAppRouter, handleErrorResult, handleErrorLog,
            getNameField, hThrow]

/-- Witness for C4: a callable `formatError` that returns a string body
replaces the envelope with exactly that body, and one that throws yields
the minimal fallback envelope. -/
theorem formatError_option_contract_witness :
    (runApiRoute ⟨.notCallable, 500, "dm", .callable (fun _ _ => .ok (.jStr "custom body"))⟩
        .vNull (.throws (.vStr "boom"))).1
      = .ok (some ⟨some 500, .jStr "custom body"⟩) ∧
    (runApiRoute ⟨.notCallable, 500, "dm", .callable (fun _ _ => .error ())⟩
        .vNull (.throws (.vStr "boom"))).1
      = .ok (some ⟨some 500, fallbackEnvelope "dm" "Error"⟩) := by
  constructor
  · exact ((formatError_option_contract .notCallable 500 "dm" .vNull (.vStr "boom")
      (fun _ _ => .ok (.jStr "custom body")) (by decide) (by decide)).1
      (.jStr "custom body") rfl).1
  · exact ((formatError_option_contract .notCallable 500 "dm" .vNull (.vStr "boom")
      (fun _ _ => .error ()) (by decide) (by decide)).2.2 rfl).1

/-- C10: error classification is nominal, not structural — a thrown plain
object carrying all three capability fields (`message`, `statusCode`,
`name`) but without `CustomError` on its prototype chain is still collapsed
to `defaultStatusCode`/`defaultMessage`, while every instance of any
subclass of the base class (any object with `CustomError` on its chain,
including consumer-defined subtypes) is recognized: its own `statusCode`
and `message` are used. -/
theorem classification_is_nominal (lg : LoggerOpt) (dsc : Int) (dm : String)
    (req : JSValue) (chain : List String) (nm msg : String) (sc : Int) :
    (chain.contains "CustomError" = false →
      (runApiRoute ⟨lg, dsc, dm, .absent⟩ req
          (.throws (.vErrObj ⟨chain, some nm, some msg, some sc⟩))).1
        = .ok (some ⟨some dsc, defaultEnvelope dm (nameOrError (some nm))⟩)) ∧
    (chain.contains "CustomError" = true →
      (runApiRoute ⟨lg, dsc, dm, .absent⟩ req
          (.throws (.vErrObj ⟨chain, some nm, some msg, some sc⟩))).1
        = .ok (some ⟨some sc,
            defaultEnvelope (if msg = "" then dm else msg) (nameOrError (some nm))⟩)) := by
  constructor <;> intro h
  · have hmem : "CustomError" ∉ chain := by simpa using h
    simp [runApiRoute, handleErrorResult, getNameField, classifyStatus,
      classifyMessage, isCustomError, jsName, jsMessage, jsStatusCode, hmem]
  · have hmem : "CustomError" ∈ chain := by simpa using h
    simp [runApiRoute, handleErrorResult, getNameField, classifyStatus,
      classifyMessage, isCustomError, jsName, jsMessage, jsStatusCode, hmem]

/-- Witness for C10: a plain object faking all three fields (`name:
"BadRequestError"`, `statusCode: 400`, a message) is still collapsed to
status 500 and the default message, while an instance of a consumer-defined
subtype `MyDomainError` of the base class is recognized and keeps its own
status 418 and message. -/
theorem classification_is_nominal_witness :
    (runApiRoute ⟨.callable false, 500, "dm", .absent⟩ .vNull
        (.throws (.vErrObj ⟨["Object"], some "BadRequestError", some "fake", some 400⟩))).1
      = .ok (some ⟨some 500, defaultEnvelope "dm" "BadRequestError"⟩) ∧
    (runApiRoute ⟨.callable false, 500, "dm", .absent⟩ .vNull
        (.throws (.vErrObj ⟨["MyDomainError", "CustomError", "Error"],
          some "MyDomainError", some "teapot", some 418⟩))).1
      = .ok (some ⟨some 418, defaultEnvelope "teapot" "MyDomainError"⟩) := by
  constructor
  · have h := (classification_is_nominal (.callable false) 500 "dm" .vNull
      ["Object"] "BadRequestError" "fake" 400).1 (by decide)
    simpa using h
  · have h := (classification_is_nominal (.callable false) 500 "dm" .vNull
      ["MyDomainError", "CustomError", "Error"] "MyDomainError" "teapot" 418).2 (by decide)
    simpa using h
